import Mathlib

/-!
Verification of the hildegard-form application (src/app.py): a shallow
embedding of its data model and operations, followed by theorems settling
the specification claims.  Every definition is translated from the source
file, except where a doc comment says it is modelled from the spec
(external third-party library behaviour).
-/

namespace Hildegard

/-! ### Strings: case-insensitive substring containment (Python `a in b` on lowered strings) -/

/-- Checks whether the first character list is an initial segment of the second
(the empty list is an initial segment of everything, as in Python). -/
def startsWithChars : List Char → List Char → Bool
  | [], _ => true
  | _ :: _, [] => false
  | a :: as, b :: bs => a == b && startsWithChars as bs

/-- Checks whether `needle` occurs contiguously inside `hay`
(Python substring membership `needle in hay`). -/
def containsChars (needle : List Char) : List Char → Bool
  | [] => needle.isEmpty
  | c :: rest => startsWithChars needle (c :: rest) || containsChars needle rest

/-- Python `needle.lower() in hay.lower()` from `get_fuzzy_matches`
(lower-casing applied character-wise). -/
def containsCI (needle hay : String) : Bool :=
  containsChars (needle.data.map Char.toLower) (hay.data.map Char.toLower)

/-- The characters removed by Python `str.strip()` (the ASCII whitespace
set; the claims only depend on emptiness after stripping). -/
def isPyWhitespace (c : Char) : Bool :=
  c == ' ' || c == '\t' || c == '\n' || c == '\r' || c == '\x0b' || c == '\x0c'

/-- Python `s.strip()`: whitespace removed from both ends. -/
def pyStrip (s : String) : String :=
  String.mk (((s.data.dropWhile isPyWhitespace).reverse.dropWhile
    isPyWhitespace).reverse)

/-! ### Dates and `strftime` formatting -/

/-- A calendar date, as produced by the step-1 date widget. -/
structure Date where
  year : Nat
  month : Nat
  day : Nat
deriving DecidableEq

/-- A wall-clock instant, as produced by `datetime.now()`. -/
structure DateTime extends Date where
  hour : Nat
  minute : Nat
  second : Nat
deriving DecidableEq

/-- Zero-pads the decimal rendering of `n` on the left to width `w`,
as CPython `strftime` does for `%Y`, `%m`, `%d`, `%H`, `%M`, `%S`. -/
def padZero (w : Nat) (n : Nat) : String :=
  let s := toString n
  String.mk (List.replicate (w - s.length) '0') ++ s

/-- `date.strftime("%Y-%m-%d")` from app.py line 587. -/
def strftime_date (d : Date) : String :=
  padZero 4 d.year ++ "-" ++ padZero 2 d.month ++ "-" ++ padZero 2 d.day

/-- `datetime.now().strftime("%Y-%m-%d %H:%M:%S")` from app.py line 586. -/
def strftime_timestamp (t : DateTime) : String :=
  strftime_date t.toDate ++ " " ++
    padZero 2 t.hour ++ ":" ++ padZero 2 t.minute ++ ":" ++ padZero 2 t.second

/-! ### The song catalog (`songs_df`) -/

/-- One row of the catalog dataframe.  `id_canti = none` models a missing
value (pandas `NaN`), for which `pd.isna` is true. -/
structure CatalogRow where
  titolo : String
  id_canti : Option String
deriving DecidableEq

/-- The catalog dataframe: its rows plus whether the `id_canti` column is
present at all (`'id_canti' in songs_df.columns`). -/
structure Catalog where
  hasIdColumn : Bool
  rows : List CatalogRow
deriving DecidableEq

/-- The `song_id` computation of app.py lines 537-547: the catalog id of the
selected title when the dataframe is non-empty, the title occurs in the
title set, and the id column exists; pandas `iloc[0]` takes the first row
whose `titolo` equals the title, and a `NaN` id is replaced by `""`. -/
def compute_song_id (cat : Catalog) (title : String) : String :=
  if !cat.rows.isEmpty && cat.rows.any (fun r => r.titolo == title) then
    if cat.hasIdColumn then
      match cat.rows.find? (fun r => r.titolo == title) with
      | some r => r.id_canti.getD ""
      | none => ""
    else ""
  else ""

/-! ### Fuzzy matching -/

/-- Stable descending insertion for `(candidate, score)` pairs: a pair is
placed before the first strictly smaller score, so equal scores keep their
original relative order. -/
def insertDesc (p : String × Nat) : List (String × Nat) → List (String × Nat)
  | [] => [p]
  | q :: rest => if q.2 < p.2 then p :: q :: rest else q :: insertDesc p rest

/-- Stable sort by descending score. -/
def sortDesc : List (String × Nat) → List (String × Nat)
  | [] => []
  | p :: rest => insertDesc p (sortDesc rest)

/-- Modelled from the spec: `thefuzz.process.extractBests`, an external
third-party library not part of this repository.  Per spec section 4.1 it
scores every candidate with a string-similarity algorithm (abstracted here
as the `scorer` parameter), keeps those with score at least `score_cutoff`,
orders them by descending score with stable tie-break by original position,
and truncates to `limit` entries. -/
def extractBests (scorer : String → String → Nat) (query : String)
    (choices : List String) (score_cutoff limit : Nat) : List (String × Nat) :=
  (sortDesc ((choices.map (fun c => (c, scorer query c))).filter
    (fun p => decide (score_cutoff ≤ p.2)))).take limit

/-- `get_fuzzy_matches` from app.py lines 37-50.  `fuzzyAvailable` is the
module-level `FUZZY_AVAILABLE` flag; when the similarity library is absent
the function falls back to case-insensitive substring containment with a
fixed score of 100, truncated to `limit`. -/
def get_fuzzy_matches (fuzzyAvailable : Bool) (scorer : String → String → Nat)
    (search_term : String) (title_list : List String)
    (limit score_cutoff : Nat) : List (String × Nat) :=
  if !fuzzyAvailable then
    ((title_list.filter (fun t => containsCI search_term t)).map
      (fun t => (t, 100))).take limit
  else
    extractBests scorer search_term title_list score_cutoff limit

/-! ### Session state (`st.session_state`) -/

/-- The per-session wizard state: the step tracker plus every in-progress
Suggestion field initialised in app.py lines 184-209 and 256-257.
`song_title_input` is a key written only by the reset handler of the
success screen (line 358); nothing else in the program reads or writes it. -/
structure SessionState where
  current_step : Nat
  selected_date : Option Date
  search_term_value : String
  selected_song_title : Option String
  is_new_song : Bool
  new_song_title : String
  author : String
  text_link : String
  audio_link : String
  notes : String
  adequacy_percentage : Nat
  form_submitted : Bool
  submission_success : Bool
  song_title_input : String
deriving DecidableEq

/-- The initial session state from the initialisation block
(app.py lines 184-209, 256-257). -/
def initial_state : SessionState where
  current_step := 1
  selected_date := none
  search_term_value := ""
  selected_song_title := none
  is_new_song := false
  new_song_title := ""
  author := ""
  text_link := ""
  audio_link := ""
  notes := ""
  adequacy_percentage := 50
  form_submitted := false
  submission_success := false
  song_title_input := ""

/-- Python truthiness of an optional string: `None` and `""` are falsy. -/
def truthyOpt (o : Option String) : Bool :=
  match o with
  | none => false
  | some s => s != ""

/-- The `disabled=` guard of each step's forward button:
line 249 (`not selected_date`), line 276 (`not search_term`),
line 339 (`not st.session_state.selected_song_title`).  Step 4 has no
forward button. -/
def next_guard (s : SessionState) : Bool :=
  match s.current_step with
  | 1 => s.selected_date.isSome
  | 2 => s.search_term_value != ""
  | 3 => truthyOpt s.selected_song_title
  | _ => false

/-- Pressing the forward button: `go_to_next_step` runs only when the
button is enabled, so a press with a false guard is a no-op. -/
def press_next (s : SessionState) : SessionState :=
  if next_guard s then { s with current_step := s.current_step + 1 } else s

/-! ### Step 3: candidate list and selection handler -/

/-- The synthetic declare-as-new entry of app.py line 295. -/
def add_new_option (search_term : String) : String :=
  "➕ Aggiungi \"" ++ search_term ++ "\" come nuovo canto"

/-- `filtered_songs` from app.py lines 285-292: the titles of the fuzzy
matches over the session song list, with limit 10 and cutoff 50, when the
search term is non-empty. -/
def filtered_songs (fuzzyAvailable : Bool) (scorer : String → String → Nat)
    (song_list : List String) (search_term : String) : List String :=
  if search_term ≠ "" then
    (get_fuzzy_matches fuzzyAvailable scorer search_term song_list 10 50).map Prod.fst
  else []

/-- `display_options` from app.py line 297: one empty no-selection entry,
then the filtered songs, then the declare-as-new entry. -/
def display_options (fuzzyAvailable : Bool) (scorer : String → String → Nat)
    (song_list : List String) (search_term : String) : List String :=
  "" :: (filtered_songs fuzzyAvailable scorer song_list search_term
    ++ [add_new_option search_term])

/-- `handle_song_selection` from app.py lines 300-315. -/
def handle_song_selection (search_term selected_value : String)
    (s : SessionState) : SessionState :=
  if selected_value = "" then
    { s with is_new_song := false, selected_song_title := none }
  else if selected_value = add_new_option search_term then
    { s with
      is_new_song := true
      selected_song_title := some search_term
      new_song_title := search_term }
  else
    { s with is_new_song := false, selected_song_title := some selected_value }

/-! ### Validation -/

/-- The two itemized validation failures of app.py lines 508-515. -/
inductive FieldError where
  | missingAuthor
  | missingNotes
deriving DecidableEq

/-- The itemized errors issued by the validation block (app.py lines
505-515): for a new song, one error when the trimmed author is empty and
one when the trimmed notes are empty; nothing otherwise. -/
def validation_errors (s : SessionState) : List FieldError :=
  if s.is_new_song then
    (if pyStrip s.author = "" then [FieldError.missingAuthor] else []) ++
      (if pyStrip s.notes = "" then [FieldError.missingNotes] else [])
  else []

/-- The `validation_error` flag of app.py line 505: set exactly when at
least one itemized error was issued. -/
def validation_error (s : SessionState) : Bool :=
  !(validation_errors s).isEmpty

/-! ### Submission -/

/-- The worksheet a row can be appended to: the two named tables, or the
spreadsheet's first worksheet used as fallback (app.py lines 583-584). -/
inductive SheetRef where
  | existingSongs
  | newSongs
  | firstSheet
deriving DecidableEq

/-- The user-visible messages of the submission path: the two itemized
validation errors (lines 511, 514), the missing-credentials error
(line 637) and the generic retry-later error (line 641). -/
inductive UserMessage where
  | missingAuthorError
  | missingNotesError
  | credentialsError
  | genericSubmitError
deriving DecidableEq

/-- The message shown for each itemized validation failure. -/
def msgOfFieldError : FieldError → UserMessage
  | FieldError.missingAuthor => UserMessage.missingAuthorError
  | FieldError.missingNotes => UserMessage.missingNotesError

/-- The external conditions of one submission attempt:
whether service credentials are configured in the secrets, whether opening
the spreadsheet succeeds, whether the two named worksheets exist, whether
creating them succeeds, whether falling back to the first worksheet
succeeds, and whether `append_row` succeeds. -/
structure SubmitEnv where
  hasSecrets : Bool
  openOk : Bool
  worksheetsExist : Bool
  createOk : Bool
  firstSheetOk : Bool
  appendOk : Bool
deriving DecidableEq

/-- Worksheet resolution from app.py lines 573-584: use the two named
worksheets when present; otherwise try to create them; if creation also
fails, fall back to the spreadsheet's first worksheet for both handles;
`none` models the remaining exceptional case (caught by the outer handler). -/
def resolve_sheets (env : SubmitEnv) : Option (SheetRef × SheetRef) :=
  if env.worksheetsExist then some (SheetRef.existingSongs, SheetRef.newSongs)
  else if env.createOk then some (SheetRef.existingSongs, SheetRef.newSongs)
  else if env.firstSheetOk then some (SheetRef.firstSheet, SheetRef.firstSheet)
  else none

/-- The existing-song row of app.py lines 591-598. -/
def existing_song_row (timestamp date_str song_id title : String)
    (adequacy : Nat) (notes : String) : List String :=
  [timestamp, date_str, song_id, title, toString adequacy ++ "%", notes]

/-- The new-song row of app.py lines 602-612; the final `"Nuovo"` is the
`tipo_suggerimento` value set on line 549. -/
def new_song_row (timestamp date_str title author text_link audio_link notes : String)
    (adequacy : Nat) : List String :=
  [timestamp, date_str, title, author, text_link, audio_link, notes,
    toString adequacy ++ "%", "Nuovo"]

/-- The result of one user action: the updated session state, the messages
shown, and the rows successfully appended (with their target worksheet). -/
structure SubmitOutcome where
  state : SessionState
  messages : List UserMessage
  appended : List (SheetRef × List String)
deriving DecidableEq

/-- The post-validation submission block of app.py lines 518-642.  The
final values are the trimmed session fields (lines 521-527); `song_id` is
looked up only for an existing song (lines 537-550); the wizard guards
ensure a title and date are present at step 4, so the `getD` defaults are
never exercised on the reachable states the claims quantify over. -/
def submit_suggestion (s : SessionState) (cat : Catalog) (env : SubmitEnv)
    (now : DateTime) : SubmitOutcome :=
  let final_song_title := s.selected_song_title.getD ""
  let song_id := if s.is_new_song then "" else compute_song_id cat final_song_title
  if env.hasSecrets then
    if env.openOk then
      match resolve_sheets env with
      | some (existingSheet, newSheet) =>
        let timestamp := strftime_timestamp now
        let date_str := strftime_date (s.selected_date.getD ⟨1970, 1, 1⟩)
        let row :=
          if s.is_new_song then
            new_song_row timestamp date_str final_song_title (pyStrip s.author)
              (pyStrip s.text_link) (pyStrip s.audio_link) (pyStrip s.notes)
              s.adequacy_percentage
          else
            existing_song_row timestamp date_str song_id final_song_title
              s.adequacy_percentage (pyStrip s.notes)
        if env.appendOk then
          { state := { s with form_submitted := false, submission_success := true }
            messages := []
            appended := [((if s.is_new_song then newSheet else existingSheet), row)] }
        else
          { state := { s with form_submitted := false }
            messages := [UserMessage.genericSubmitError], appended := [] }
      | none =>
        { state := { s with form_submitted := false }
          messages := [UserMessage.genericSubmitError], appended := [] }
    else
      { state := { s with form_submitted := false }
        messages := [UserMessage.genericSubmitError], appended := [] }
  else
    { state := { s with form_submitted := false }
      messages := [UserMessage.credentialsError], appended := [] }

/-- The `if st.session_state.form_submitted:` block of app.py lines
503-646: validate, and either report the itemized errors (resetting the
submission flag, line 646) or run the submission. -/
def handle_form_submitted (s : SessionState) (cat : Catalog) (env : SubmitEnv)
    (now : DateTime) : SubmitOutcome :=
  if s.form_submitted then
    if (validation_errors s).isEmpty then
      submit_suggestion s cat env now
    else
      { state := { s with form_submitted := false }
        messages := (validation_errors s).map msgOfFieldError
        appended := [] }
  else
    { state := s, messages := [], appended := [] }

/-- The reset handler behind the explicit new-suggestion button on the
success screen (app.py lines 356-369).  It writes the dead key
`song_title_input` but leaves `search_term_value` (the variable actually
backing the step-2 search box) untouched. -/
def reset_for_new_suggestion (s : SessionState) : SessionState :=
  { s with
    song_title_input := ""
    selected_song_title := none
    is_new_song := false
    author := ""
    text_link := ""
    audio_link := ""
    notes := ""
    adequacy_percentage := 50
    form_submitted := false
    submission_success := false
    current_step := 1 }

/-! ### Shared concrete instances -/

/-- A trivial similarity scorer used to instantiate the abstract scorer
parameter in concrete evaluations. -/
def scorer0 : String → String → Nat := fun _ _ => 0

/-- An empty catalog (both remote and local loading failed). -/
def catEmpty : Catalog := ⟨false, []⟩

/-! ### Claims -/

/-- Claim C2: the Submission Validator rejects a Suggestion if and only if
`is_new` is true and its trimmed author or trimmed notes is empty, with one
itemized error per missing field; a Suggestion with `is_new` false is
accepted regardless of other field values, including empty notes. -/
theorem c2_validator (s : SessionState) :
    (validation_error s = true ↔
      (s.is_new_song = true ∧ (pyStrip s.author = "" ∨ pyStrip s.notes = "")))
    ∧ ((FieldError.missingAuthor ∈ validation_errors s) ↔
      (s.is_new_song = true ∧ pyStrip s.author = ""))
    ∧ ((FieldError.missingNotes ∈ validation_errors s) ↔
      (s.is_new_song = true ∧ pyStrip s.notes = ""))
    ∧ (validation_errors s).Nodup := by
  unfold validation_error validation_errors
  cases hn : s.is_new_song <;>
    by_cases ha : pyStrip s.author = "" <;>
    by_cases hb : pyStrip s.notes = "" <;>
    simp [hn, ha, hb]

/-- A truthy optional string is not `none`. -/
theorem truthyOpt_ne_none {o : Option String} (h : truthyOpt o = true) :
    o ≠ none := by
  cases o with
  | none => simp [truthyOpt] at h
  | some a => simp

/-- Claim C5: the Step Flow Controller never advances past a step whose
guard is false: whenever pressing the forward button changes the step, the
guard of the current step held, i.e. leaving step 1 requires a selected
date, leaving step 2 a non-empty search string, and leaving step 3 a
non-null selected song reference. -/
theorem c5_step_guards (s : SessionState)
    (h : (press_next s).current_step ≠ s.current_step) :
    (s.current_step = 1 → s.selected_date.isSome = true)
    ∧ (s.current_step = 2 → s.search_term_value ≠ "")
    ∧ (s.current_step = 3 → s.selected_song_title ≠ none) := by
  have hg : next_guard s = true := by
    by_contra hng
    simp [press_next, hng] at h
  refine ⟨?_, ?_, ?_⟩ <;> intro hstep
  · have hg2 := hg
    simp [next_guard, hstep] at hg2
    exact hg2
  · have hg2 := hg
    simp [next_guard, hstep] at hg2
    exact hg2
  · have hg2 := hg
    simp [next_guard, hstep] at hg2
    exact truthyOpt_ne_none hg2

/-- A state at step 1 with a date selected, where the forward button
actually advances. -/
def c5s : SessionState := { initial_state with selected_date := some ⟨2024, 3, 10⟩ }

/-- Witness for C5 at a concrete advancing state. -/
theorem c5_step_guards_witness :
    (c5s.current_step = 1 → c5s.selected_date.isSome = true)
    ∧ (c5s.current_step = 2 → c5s.search_term_value ≠ "")
    ∧ (c5s.current_step = 3 → c5s.selected_song_title ≠ none) :=
  c5_step_guards c5s (by decide)

/-- Claim C10: the step-3 selection list always begins with one extra
empty no-selection entry placed before the fuzzy candidates and the
declare-as-new option; choosing it sets the selected song reference to
`none` and `is_new` to false, after which the forward transition out of
step 3 is a no-op. -/
theorem c10_no_selection (fa : Bool) (scorer : String → String → Nat)
    (song_list : List String) (search_term : String) (s : SessionState)
    (hstep : s.current_step = 3) :
    display_options fa scorer song_list search_term =
      "" :: (filtered_songs fa scorer song_list search_term
        ++ [add_new_option search_term])
    ∧ (handle_song_selection search_term "" s).selected_song_title = none
    ∧ (handle_song_selection search_term "" s).is_new_song = false
    ∧ press_next (handle_song_selection search_term "" s) =
        handle_song_selection search_term "" s := by
  refine ⟨rfl, rfl, rfl, ?_⟩
  simp [press_next, next_guard, handle_song_selection, hstep, truthyOpt]

/-- A state sitting at step 3. -/
def c10s : SessionState :=
  { initial_state with current_step := 3, search_term_value := "alleluia" }

/-- Witness for C10 at a concrete step-3 state. -/
theorem c10_no_selection_witness :
    display_options false scorer0 ["Santo"] "alleluia" =
      "" :: (filtered_songs false scorer0 ["Santo"] "alleluia"
        ++ [add_new_option "alleluia"])
    ∧ (handle_song_selection "alleluia" "" c10s).selected_song_title = none
    ∧ (handle_song_selection "alleluia" "" c10s).is_new_song = false
    ∧ press_next (handle_song_selection "alleluia" "" c10s) =
        handle_song_selection "alleluia" "" c10s :=
  c10_no_selection false scorer0 ["Santo"] "alleluia" c10s rfl

/-- Claim C9: with no similarity library, the Fuzzy Matcher returns, for
every query and candidate list, exactly the candidates that contain the
query as a case-insensitive substring, each paired with the fixed score
100, in the candidates' original order, truncated to at most `limit`
entries: unconditionally, its title projection is precisely the first
`limit` substring matches (a sublist of the input, hence in original
order), every returned score is 100, and the whole result equals the
filter-map-take of the candidate list. -/
theorem c9_degraded_matches (scorer : String → String → Nat) (q : String)
    (l : List String) (limit cutoff : Nat) :
    (get_fuzzy_matches false scorer q l limit cutoff).map Prod.fst
      = (l.filter (fun t => containsCI q t)).take limit
    ∧ (∀ p ∈ get_fuzzy_matches false scorer q l limit cutoff,
        p.2 = 100 ∧ containsCI q p.1 = true)
    ∧ (get_fuzzy_matches false scorer q l limit cutoff).length ≤ limit
    ∧ List.Sublist
        ((get_fuzzy_matches false scorer q l limit cutoff).map Prod.fst) l
    ∧ get_fuzzy_matches false scorer q l limit cutoff
      = ((l.filter (fun t => containsCI q t)).map (fun t => (t, 100))).take limit := by
  have hdef : get_fuzzy_matches false scorer q l limit cutoff
      = ((l.filter (fun t => containsCI q t)).map (fun t => (t, 100))).take limit := rfl
  have hmap : (get_fuzzy_matches false scorer q l limit cutoff).map Prod.fst
      = (l.filter (fun t => containsCI q t)).take limit := by
    rw [hdef, ← List.map_take, List.map_map]
    have hid : (Prod.fst ∘ fun t : String => (t, (100 : Nat))) = id := rfl
    rw [hid, List.map_id]
  refine ⟨hmap, ?_, ?_, ?_, hdef⟩
  · intro p hp
    rw [hdef] at hp
    have hp2 := List.take_subset _ _ hp
    rcases List.mem_map.1 hp2 with ⟨t, ht, rfl⟩
    exact ⟨rfl, (List.mem_filter.1 ht).2⟩
  · rw [hdef]
    exact List.length_take_le limit _
  · rw [hmap]
    exact (List.take_sublist _ _).trans (List.filter_sublist _)

/-- A concrete title list with more substring matches for "canto" (three)
than the limit used below (two). -/
def c9titles : List String :=
  ["Canto di Alleluia", "Secondo Canto", "Santo", "Terzo Canto"]

/-- Witness for C9 at a concrete list whose matches exceed the limit: the
result is exactly the first two of the three substring matches. -/
theorem c9_degraded_matches_witness :
    (get_fuzzy_matches false scorer0 "canto" c9titles 2 50).map Prod.fst
      = ["Canto di Alleluia", "Secondo Canto"] := by
  have h := (c9_degraded_matches scorer0 "canto" c9titles 2 50).1
  exact h.trans (by decide)

/-- `find?` returns the element after a prefix of non-matches. -/
theorem find?_first {α : Type} {p : α → Bool} :
    ∀ (pre : List α) (r : α) (post : List α),
      (∀ q ∈ pre, p q = false) → p r = true →
      (pre ++ r :: post).find? p = some r := by
  intro pre
  induction pre with
  | nil =>
    intro r post hpre hr
    simp [List.find?_cons_of_pos, hr]
  | cons a as ih =>
    intro r post hpre hr
    have ha : p a = false := hpre a (by simp)
    rw [List.cons_append, List.find?_cons_of_neg]
    · exact ih r post (fun q hq => hpre q (by simp [hq])) hr
    · simp [ha]

/-- Claim C4: for an existing-song submission the row's song id field is
the catalog id of the selected title exactly when the catalog is
non-empty, carries an id column, contains the title, and that id is not a
missing value (`getD ""` collapses a missing id to the empty string);
otherwise it is the empty string.  With duplicate titles, the id of the
first matching row wins. -/
theorem c4_song_id_lookup (cat : Catalog) (title : String) :
    ((cat.rows = [] ∨ cat.hasIdColumn = false
        ∨ (∀ r ∈ cat.rows, r.titolo ≠ title)) →
      compute_song_id cat title = "")
    ∧ (∀ pre r post, cat.rows = pre ++ r :: post →
        (∀ q ∈ pre, q.titolo ≠ title) → r.titolo = title →
        cat.hasIdColumn = true →
        compute_song_id cat title = r.id_canti.getD "") := by
  constructor
  · intro h
    rcases h with h | h | h
    · simp [compute_song_id, h]
    · simp [compute_song_id, h]
    · have hany : cat.rows.any (fun r => r.titolo == title) = false := by
        simp only [List.any_eq_false, beq_iff_eq]
        exact h
      simp [compute_song_id, hany]
  · intro pre r post hrows hpre hr hid
    have hfind : cat.rows.find? (fun q => q.titolo == title) = some r := by
      rw [hrows]
      exact find?_first pre r post (fun q hq => by simp [hpre q hq]) (by simp [hr])
    have hany : cat.rows.any (fun q => q.titolo == title) = true := by
      rw [hrows]
      exact List.any_eq_true.2 ⟨r, by simp, by simp [hr]⟩
    have hne : cat.rows.isEmpty = false := by
      rw [hrows]
      simp
    simp [compute_song_id, hne, hany, hid, hfind]

/-- A catalog with an id column and two rows sharing the same title. -/
def c4cat : Catalog :=
  ⟨true, [⟨"Santo", some "9"⟩, ⟨"Alleluia", some "2"⟩, ⟨"Alleluia", some "3"⟩]⟩

/-- Witness for C4: on a catalog with duplicate titles, the first matching
row's id is returned. -/
theorem c4_song_id_lookup_witness : compute_song_id c4cat "Alleluia" = "2" := by
  have h := (c4_song_id_lookup c4cat "Alleluia").2
    [⟨"Santo", some "9"⟩] ⟨"Alleluia", some "2"⟩ [⟨"Alleluia", some "3"⟩]
    rfl (by decide) rfl rfl
  simpa using h

/-- A submission environment where everything succeeds. -/
def envAllOk : SubmitEnv := ⟨true, true, true, true, true, true⟩

/-- A concrete submission instant. -/
def c1now : DateTime := ⟨⟨2024, 3, 10⟩, 9, 5, 7⟩

/-- A confirmed existing-song Suggestion. -/
def c1s : SessionState :=
  { initial_state with
    current_step := 4
    selected_date := some ⟨2024, 3, 10⟩
    search_term_value := "resta"
    selected_song_title := some "Resta Con Noi"
    notes := "ben adatto"
    adequacy_percentage := 75
    form_submitted := true }

/-- Claim C6: when the write to the destination store fails after a valid
Suggestion is confirmed, the failure is caught, exactly the generic
retry-later message is shown, no row is appended, and the session state is
left unchanged apart from clearing the submission flag: the step stays at
4 and every Suggestion field keeps its value for a retry. -/
theorem c6_write_failure (s : SessionState) (cat : Catalog) (env : SubmitEnv)
    (now : DateTime)
    (hsub : s.form_submitted = true) (hval : validation_errors s = [])
    (hstep : s.current_step = 4)
    (hsec : env.hasSecrets = true) (hopen : env.openOk = true)
    (hws : env.worksheetsExist = true) (happ : env.appendOk = false) :
    (handle_form_submitted s cat env now).messages
        = [UserMessage.genericSubmitError]
    ∧ (handle_form_submitted s cat env now).appended = []
    ∧ (handle_form_submitted s cat env now).state
        = { s with form_submitted := false }
    ∧ (handle_form_submitted s cat env now).state.current_step = 4
    ∧ (handle_form_submitted s cat env now).state.selected_date
        = s.selected_date
    ∧ (handle_form_submitted s cat env now).state.selected_song_title
        = s.selected_song_title
    ∧ (handle_form_submitted s cat env now).state.is_new_song = s.is_new_song
    ∧ (handle_form_submitted s cat env now).state.author = s.author
    ∧ (handle_form_submitted s cat env now).state.text_link = s.text_link
    ∧ (handle_form_submitted s cat env now).state.audio_link = s.audio_link
    ∧ (handle_form_submitted s cat env now).state.notes = s.notes
    ∧ (handle_form_submitted s cat env now).state.adequacy_percentage
        = s.adequacy_percentage := by
  have hmain : handle_form_submitted s cat env now =
      { state := { s with form_submitted := false }
        messages := [UserMessage.genericSubmitError]
        appended := [] } := by
    simp [handle_form_submitted, submit_suggestion, resolve_sheets,
      hsub, hval, hsec, hopen, hws, happ]
  rw [hmain]
  exact ⟨rfl, rfl, rfl, hstep, rfl, rfl, rfl, rfl, rfl, rfl, rfl, rfl⟩

/-- A confirmed new-song Suggestion at step 4. -/
def c6s : SessionState :=
  { initial_state with
    current_step := 4
    selected_date := some ⟨2024, 4, 1⟩
    search_term_value := "canto fermo"
    selected_song_title := some "Canto Nuovo"
    is_new_song := true
    new_song_title := "Canto Nuovo"
    author := "M. Rossi"
    notes := "proposta"
    adequacy_percentage := 60
    form_submitted := true }

/-- An environment where only `append_row` fails. -/
def c6env : SubmitEnv := ⟨true, true, true, true, true, false⟩

/-- Witness for C6 at a concrete failing append. -/
theorem c6_write_failure_witness :
    (handle_form_submitted c6s catEmpty c6env c1now).messages
        = [UserMessage.genericSubmitError]
    ∧ (handle_form_submitted c6s catEmpty c6env c1now).state.current_step = 4
    ∧ (handle_form_submitted c6s catEmpty c6env c1now).state.author = c6s.author
    ∧ (handle_form_submitted c6s catEmpty c6env c1now).appended = [] := by
  have h := c6_write_failure c6s catEmpty c6env c1now rfl rfl rfl rfl rfl rfl rfl
  exact ⟨h.1, h.2.2.2.1, h.2.2.2.2.2.2.2.1, h.2.1⟩

/-- The state shown on the success screen, from which the user presses the
explicit new-suggestion button. -/
def c7s : SessionState :=
  { c6s with form_submitted := false, submission_success := true }

/-- Claim C7 (code-bug exhibit): after a successful write nothing is
cleared automatically — the wizard stays at step 4 with every field
intact — and the explicit new-suggestion reset returns to step 1 clearing
the song reference, `is_new`, author, notes and adequacy; but the search
string, which the claim says is also cleared to its initial empty value,
keeps its old value (`reset_for_new_suggestion` writes the dead key
`song_title_input` instead of `search_term_value`). -/
theorem c7_reset_keeps_search :
    (handle_form_submitted c6s catEmpty envAllOk c1now).state.current_step = 4
    ∧ (handle_form_submitted c6s catEmpty envAllOk c1now).state.submission_success
        = true
    ∧ (handle_form_submitted c6s catEmpty envAllOk c1now).state.search_term_value
        = "canto fermo"
    ∧ (reset_for_new_suggestion c7s).current_step = 1
    ∧ (reset_for_new_suggestion c7s).selected_song_title = none
    ∧ (reset_for_new_suggestion c7s).is_new_song = false
    ∧ (reset_for_new_suggestion c7s).author = ""
    ∧ (reset_for_new_suggestion c7s).notes = ""
    ∧ (reset_for_new_suggestion c7s).adequacy_percentage = 50
    ∧ initial_state.search_term_value = ""
    ∧ (reset_for_new_suggestion c7s).search_term_value = "canto fermo" := by
  decide

/-- An environment where the named worksheets are missing and creating
them fails, but the first-worksheet fallback and the append succeed. -/
def c8env : SubmitEnv := ⟨true, true, false, false, true, true⟩

/-- Claim C8 counterexample: with the destination tables missing and their
creation failing, the write is not aborted — a row is still appended (to
the spreadsheet's first worksheet) — and no message surfaces the creation
failure. -/
theorem c8_counterexample_fallback_append :
    (handle_form_submitted c6s catEmpty c8env c1now).appended ≠ []
    ∧ (handle_form_submitted c6s catEmpty c8env c1now).messages = [] := by
  decide

/-- Claim C8 as amended: if the destination tables are missing at
submission time the program attempts to create them; if that creation also
fails it does not abort the write but falls back to the spreadsheet's
first worksheet for both tables and appends the row there, surfacing no
message for the creation failure, and the session continues (the
submission is marked successful). -/
theorem c8_amended_first_sheet_fallback (s : SessionState) (cat : Catalog)
    (env : SubmitEnv) (now : DateTime) (title : String) (d : Date)
    (hsub : s.form_submitted = true) (hval : validation_errors s = [])
    (htitle : s.selected_song_title = some title)
    (hdate : s.selected_date = some d)
    (hsec : env.hasSecrets = true) (hopen : env.openOk = true)
    (hws : env.worksheetsExist = false) (hcr : env.createOk = false)
    (hfs : env.firstSheetOk = true) (happ : env.appendOk = true) :
    (handle_form_submitted s cat env now).messages = []
    ∧ (handle_form_submitted s cat env now).appended =
      [(SheetRef.firstSheet,
        if s.is_new_song then
          [strftime_timestamp now, strftime_date d, title, pyStrip s.author,
            pyStrip s.text_link, pyStrip s.audio_link, pyStrip s.notes,
            toString s.adequacy_percentage ++ "%", "Nuovo"]
        else
          [strftime_timestamp now, strftime_date d, compute_song_id cat title,
            title, toString s.adequacy_percentage ++ "%", pyStrip s.notes])]
    ∧ (handle_form_submitted s cat env now).state.submission_success = true := by
  cases hn : s.is_new_song <;>
    simp [handle_form_submitted, submit_suggestion, resolve_sheets,
      hsub, hval, hsec, hopen, hws, hcr, hfs, happ, htitle, hdate, hn,
      new_song_row, existing_song_row]

/-- Witness for the amended C8: the spec's round-trip new-song example,
appended to the first worksheet after a failed table creation. -/
theorem c8_amended_first_sheet_fallback_witness :
    (handle_form_submitted c6s catEmpty c8env c1now).appended =
      [(SheetRef.firstSheet,
        ["2024-03-10 09:05:07", "2024-04-01", "Canto Nuovo", "M. Rossi",
          "", "", "proposta", "60%", "Nuovo"])] := by
  have h := c8_amended_first_sheet_fallback c6s catEmpty c8env c1now
    "Canto Nuovo" ⟨2024, 4, 1⟩ rfl rfl rfl rfl rfl rfl rfl rfl rfl rfl
  exact h.2.1.trans (by decide)

/-- Claim C1 counterexample: a confirmed new-song Suggestion in the
reachable creation-failure fallback run has its row appended, but to the
spreadsheet's first worksheet rather than to the `new_songs` (or
`existing_songs`) table the claim names as the destination. -/
theorem c1_counterexample_fallback_destination :
    (handle_form_submitted c6s catEmpty c8env c1now).appended.map Prod.fst
      = [SheetRef.firstSheet]
    ∧ SheetRef.firstSheet ≠ SheetRef.newSongs
    ∧ SheetRef.firstSheet ≠ SheetRef.existingSongs := by
  decide

/-- Claim C1 as amended: for every confirmed Suggestion whose submission
appends a row (credentials present, spreadsheet opened, a worksheet pair
resolved, append succeeding), the appended row is exactly the specified
shape for its song type — existing:
`[timestamp, liturgy_date, song_id_or_empty, song_title, adequacy%, notes]`,
new: `[timestamp, liturgy_date, song_title, author, text_link, audio_link,
notes, adequacy%, "Nuovo"]`, with the timestamp rendered by
`strftime_timestamp` (`YYYY-MM-DD HH:MM:SS`) and the date by
`strftime_date` (`YYYY-MM-DD`) — and its destination is the resolved
worksheet for the song type, which is the named
`existing_songs`/`new_songs` table whenever the two named worksheets
exist, and the spreadsheet's first worksheet only in the creation-failure
fallback. -/
theorem c1_amended_row_shape (s : SessionState) (cat : Catalog)
    (env : SubmitEnv) (now : DateTime) (title : String) (d : Date)
    (es ns : SheetRef)
    (hsub : s.form_submitted = true) (hval : validation_errors s = [])
    (htitle : s.selected_song_title = some title)
    (hdate : s.selected_date = some d)
    (hsec : env.hasSecrets = true) (hopen : env.openOk = true)
    (happ : env.appendOk = true)
    (hres : resolve_sheets env = some (es, ns)) :
    (handle_form_submitted s cat env now).appended =
      [if s.is_new_song then
        (ns,
          [strftime_timestamp now, strftime_date d, title, pyStrip s.author,
            pyStrip s.text_link, pyStrip s.audio_link, pyStrip s.notes,
            toString s.adequacy_percentage ++ "%", "Nuovo"])
      else
        (es,
          [strftime_timestamp now, strftime_date d, compute_song_id cat title,
            title, toString s.adequacy_percentage ++ "%", pyStrip s.notes])]
    ∧ (env.worksheetsExist = true →
        es = SheetRef.existingSongs ∧ ns = SheetRef.newSongs) := by
  constructor
  · cases hn : s.is_new_song <;>
      simp [handle_form_submitted, submit_suggestion, hres, hsub, hval,
        hsec, hopen, happ, htitle, hdate, hn, new_song_row, existing_song_row]
  · intro hws
    simp [resolve_sheets, hws] at hres
    exact ⟨hres.1.symm, hres.2.symm⟩

/-- Witness for the amended C1: the spec's round-trip existing-song
example, appended to the `existing_songs` table with everything healthy. -/
theorem c1_amended_row_shape_witness :
    (handle_form_submitted c1s catEmpty envAllOk c1now).appended =
      [(SheetRef.existingSongs,
        ["2024-03-10 09:05:07", "2024-03-10", "", "Resta Con Noi", "75%",
          "ben adatto"])] := by
  have h := c1_amended_row_shape c1s catEmpty envAllOk c1now
    "Resta Con Noi" ⟨2024, 3, 10⟩ SheetRef.existingSongs SheetRef.newSongs
    rfl rfl rfl rfl rfl rfl rfl rfl
  exact h.1.trans (by decide)

end Hildegard
